import Mathlib

/-!
Shallow embedding of `ckan/model/activity.py`: the activity-feed query
layer of CKAN.  Queries are embedded as an expression tree (`Pred`,
`Query`) mirroring the SQLAlchemy query objects the source builds, and
`evalQuery` gives their semantics against an explicit database state
(`DB`).  SQL `UNION` is modelled as concatenation followed by row
deduplication; `UNION ALL` as plain concatenation; `ORDER BY timestamp
DESC` as a stable insertion sort on the timestamp (SQL leaves the order
of equal keys unspecified; the stable sort over the table's insertion
order is one deterministic realisation of it, and properties that
compare separate query executions are settled against the
nondeterministic relation `possibleExecution`, which admits every
timestamp-descending tie order).  Timestamps are `Nat`,
ids are `String`, and the free-form JSON `data` payload is modelled as
an association list of strings (opaque at this layer).
-/

namespace CkanActivity

/-- One row of the `activity` table (`activity_table` in the source). -/
structure Activity where
  id : String
  timestamp : Nat
  user_id : String
  object_id : String
  revision_id : String
  activity_type : String
  data : List (String × String)
deriving DecidableEq, Repr

/-- One row of the `activity_detail` table (`activity_detail_table`).
The surrogate `id` column is generated by the store, not by
`ActivityDetail.__init__`, so it is not part of the constructed record. -/
structure ActivityDetail where
  activity_id : String
  object_id : String
  object_type : String
  activity_type : String
  data : List (String × String)
deriving DecidableEq, Repr

/-- The database state the queries run against: the activity table (in
insertion order), the group store (`model.Group`: group id together with
the ids of the group's datasets, i.e. `group.packages()`), and the three
follow tables as `(follower_id, object_id)` pairs. -/
structure DB where
  activities : List Activity
  groups : List (String × List String)
  user_following_user : List (String × String)
  user_following_dataset : List (String × String)
  user_following_group : List (String × String)
deriving Repr

/-- Filter predicates over single activity rows, as the source builds
them with `filter` / `filter_by` / `or_` / `in_` / `endswith`.
`ff` is the source's `filter("0=1")` (a query with no results). -/
inductive Pred where
  | ff : Pred
  | userIdEq : String → Pred
  | objectIdEq : String → Pred
  | objectIdIn : List String → Pred
  | orP : Pred → Pred → Pred
  | typeEndsWith : String → Pred
deriving DecidableEq, Repr

/-- Semantics of a filter predicate on one activity row. -/
def evalPred : Pred → Activity → Bool
  | .ff, _ => false
  | .userIdEq s, a => a.user_id == s
  | .objectIdEq s, a => a.object_id == s
  | .objectIdIn ids, a => ids.contains a.object_id
  | .orP p q, a => evalPred p a || evalPred q a
  | .typeEndsWith s, a => a.activity_type.endsWith s

/-- Unexecuted query expressions over the activity table, mirroring the
SQLAlchemy query values the source composes.  `joinUserFollowingUser f`
is `Session.query(Activity).join(UserFollowingUser, UserFollowingUser
.object_id == Activity.user_id).filter(UserFollowingUser.follower_id ==
f)`; `joinUserFollowingDataset` the analogue on `Activity.object_id`. -/
inductive Query where
  | filter : Pred → Query
  | joinUserFollowingUser : String → Query
  | joinUserFollowingDataset : String → Query
  | union : Query → Query → Query
  | unionAll : Query → Query → Query
deriving DecidableEq, Repr

/-- Semantics of a query expression: the multiset of returned rows, in a
deterministic order (the table's insertion order for filters and joins;
a join emits one row per matching pair of activity row and follow row;
`union` deduplicates rows, `unionAll` does not). -/
def evalQuery (db : DB) : Query → List Activity
  | .filter p => db.activities.filter (fun a => evalPred p a)
  | .joinUserFollowingUser f =>
      db.activities.flatMap (fun a =>
        (db.user_following_user.filter
          (fun r => r.1 == f && r.2 == a.user_id)).map (fun _ => a))
  | .joinUserFollowingDataset f =>
      db.activities.flatMap (fun a =>
        (db.user_following_dataset.filter
          (fun r => r.1 == f && r.2 == a.object_id)).map (fun _ => a))
  | .union q1 q2 => (evalQuery db q1 ++ evalQuery db q2).dedup
  | .unionAll q1 q2 => evalQuery db q1 ++ evalQuery db q2

/-- The ordering used by `_activities_at_offset`: `desc(Activity.timestamp)`.
No further sort key appears in the source. -/
def activityOrd (a b : Activity) : Prop := b.timestamp ≤ a.timestamp

instance : DecidableRel activityOrd := fun a b => Nat.decLe b.timestamp a.timestamp

instance : IsTotal Activity activityOrd :=
  ⟨fun a b => Nat.le_total b.timestamp a.timestamp⟩

instance : IsTrans Activity activityOrd :=
  ⟨fun _ _ _ h1 h2 => Nat.le_trans h2 h1⟩

/-- Embeds `ORDER BY timestamp DESC`, realised as a stable sort. -/
def sortByTimestampDesc (l : List Activity) : List Activity :=
  l.insertionSort activityOrd

/-- Embeds `Activity.__init__`: the generated uuid and the current time are
inputs here (the source draws them from `make_uuid()` and
`datetime.datetime.now()`); `data=None` defaults to the empty dict. -/
def Activity.init (gen_id : String) (now : Nat)
    (user_id object_id revision_id activity_type : String)
    (data : Option (List (String × String))) : Activity :=
  { id := gen_id
    timestamp := now
    user_id := user_id
    object_id := object_id
    revision_id := revision_id
    activity_type := activity_type
    data := match data with
            | none => []
            | some d => d }

/-- Embeds `ActivityDetail.__init__`: `data=None` defaults to the empty dict. -/
def ActivityDetail.init (activity_id object_id object_type activity_type : String)
    (data : Option (List (String × String))) : ActivityDetail :=
  { activity_id := activity_id
    object_id := object_id
    object_type := object_type
    activity_type := activity_type
    data := match data with
            | none => []
            | some d => d }

/-- Embeds `_activities_at_offset(q, limit, offset)`: order by timestamp
descending, then `if offset: q = q.offset(offset)`, then
`if limit: q = q.limit(limit)`, then execute.  `limit`/`offset` are
Python ints; zero is falsy so the corresponding stage is skipped.  The
row semantics of a negative window value belongs to the external store
(the source passes the value through unchecked); it is modelled here via
`Int.toNat`, under which a negative offset skips nothing and a negative
limit caps to zero rows. -/
def _activities_at_offset (db : DB) (q : Query) (limit offset : Int) :
    List Activity :=
  let rows := sortByTimestampDesc (evalQuery db q)
  let rows := if offset ≠ 0 then rows.drop offset.toNat else rows
  if limit ≠ 0 then rows.take limit.toNat else rows

/-- The offset/limit windowing stage of `_activities_at_offset`, applied
to one realized row order of the composed query. -/
def windowRows (rows : List Activity) (limit offset : Int) : List Activity :=
  let rows := if offset ≠ 0 then rows.drop offset.toNat else rows
  if limit ≠ 0 then rows.take limit.toNat else rows

/-- Nondeterministic execution semantics of `_activities_at_offset`: SQL
specifies only that an execution returns the composed query's result set
in some order consistent with `ORDER BY timestamp DESC`; the relative
order of equal-timestamp rows is unspecified and distinct executions of
the same query need not agree on it.  `possibleExecution db q limit
offset res` holds when `res` is a possible result of one execution: some
timestamp-descending arrangement `rows` of the result multiset,
windowed by offset/limit.  The deterministic `_activities_at_offset` is
one realisation of this relation; claims that compare separate
executions are settled against this relation, not against the fixed
realisation. -/
def possibleExecution (db : DB) (q : Query) (limit offset : Int)
    (res : List Activity) : Prop :=
  ∃ rows : List Activity, rows.Perm (evalQuery db q) ∧
    List.Pairwise activityOrd rows ∧ res = windowRows rows limit offset

/-- Embeds `_activities_from_user_query(user_id)`. -/
def _activities_from_user_query (user_id : String) : Query :=
  .filter (.userIdEq user_id)

/-- Embeds `_activities_about_user_query(user_id)`. -/
def _activities_about_user_query (user_id : String) : Query :=
  .filter (.objectIdEq user_id)

/-- Embeds `_user_activity_query(user_id)`: from-user union about-user. -/
def _user_activity_query (user_id : String) : Query :=
  .union (_activities_from_user_query user_id)
         (_activities_about_user_query user_id)

/-- Embeds `user_activity_list(user_id, limit, offset)`. -/
def user_activity_list (db : DB) (user_id : String) (limit offset : Int) :
    List Activity :=
  _activities_at_offset db (_user_activity_query user_id) limit offset

/-- Embeds `_package_activity_query(package_id)`. -/
def _package_activity_query (package_id : String) : Query :=
  .filter (.objectIdEq package_id)

/-- Embeds `package_activity_list(package_id, limit, offset)`. -/
def package_activity_list (db : DB) (package_id : String) (limit offset : Int) :
    List Activity :=
  _activities_at_offset db (_package_activity_query package_id) limit offset

/-- Embeds `model.Group.get(group_id)`: lookup in the group store. -/
def Group.get (db : DB) (group_id : String) : Option (String × List String) :=
  db.groups.find? (fun g => g.1 == group_id)

/-- Embeds `_group_activity_query(group_id)`: for a missing group, the
`filter("0=1")` empty query; otherwise object is the group or, when the
group has datasets, one of the group's datasets. -/
def _group_activity_query (db : DB) (group_id : String) : Query :=
  match Group.get db group_id with
  | none => .filter .ff
  | some group =>
      let dataset_ids := group.2
      if dataset_ids ≠ [] then
        .filter (.orP (.objectIdEq group_id) (.objectIdIn dataset_ids))
      else
        .filter (.objectIdEq group_id)

/-- Embeds `group_activity_list(group_id, limit, offset)`. -/
def group_activity_list (db : DB) (group_id : String) (limit offset : Int) :
    List Activity :=
  _activities_at_offset db (_group_activity_query db group_id) limit offset

/-- Embeds `_activites_from_users_followed_by_user_query(user_id)` (source's
spelling). -/
def _activites_from_users_followed_by_user_query (user_id : String) : Query :=
  .joinUserFollowingUser user_id

/-- Embeds `_activities_from_datasets_followed_by_user_query(user_id)`. -/
def _activities_from_datasets_followed_by_user_query (user_id : String) : Query :=
  .joinUserFollowingDataset user_id

/-- Embeds `model.UserFollowingGroup.followee_list(user_id)`: the follow rows
whose follower is `user_id`. -/
def followee_list (db : DB) (user_id : String) : List (String × String) :=
  db.user_following_group.filter (fun r => r.1 == user_id)

/-- Embeds `_activities_from_groups_followed_by_user_query(user_id)`: with no
followed groups, the `filter("0=1")` empty query; otherwise the
`union_all` of `_group_activity_query` over every followed group. -/
def _activities_from_groups_followed_by_user_query (db : DB) (user_id : String) :
    Query :=
  match followee_list db user_id with
  | [] => .filter .ff
  | f0 :: rest =>
      rest.foldl (fun q f => .unionAll q (_group_activity_query db f.2))
        (_group_activity_query db f0.2)

/-- Embeds `_activities_from_everything_followed_by_user_query(user_id)`. -/
def _activities_from_everything_followed_by_user_query (db : DB)
    (user_id : String) : Query :=
  .union (.union (_activites_from_users_followed_by_user_query user_id)
                 (_activities_from_datasets_followed_by_user_query user_id))
         (_activities_from_groups_followed_by_user_query db user_id)

/-- Embeds `activities_from_everything_followed_by_user(user_id, limit, offset)`. -/
def activities_from_everything_followed_by_user (db : DB) (user_id : String)
    (limit offset : Int) : List Activity :=
  _activities_at_offset db
    (_activities_from_everything_followed_by_user_query db user_id) limit offset

/-- Embeds `_dashboard_activity_query(user_id)`: the five-way union of
from-user, about-user and the three followed-things queries. -/
def _dashboard_activity_query (db : DB) (user_id : String) : Query :=
  .union (.union (.union (.union (_activities_from_user_query user_id)
                                 (_activities_about_user_query user_id))
                         (_activites_from_users_followed_by_user_query user_id))
                 (_activities_from_datasets_followed_by_user_query user_id))
         (_activities_from_groups_followed_by_user_query db user_id)

/-- Embeds `dashboard_activity_list(user_id, limit, offset)`. -/
def dashboard_activity_list (db : DB) (user_id : String) (limit offset : Int) :
    List Activity :=
  _activities_at_offset db (_dashboard_activity_query db user_id) limit offset

/-- Embeds `_changed_packages_activity_query()`: `activity_type` ends with
`"package"`. -/
def _changed_packages_activity_query : Query :=
  .filter (.typeEndsWith "package")

/-- Embeds `recently_changed_packages_activity_list(limit, offset)`. -/
def recently_changed_packages_activity_list (db : DB) (limit offset : Int) :
    List Activity :=
  _activities_at_offset db _changed_packages_activity_query limit offset

/-! ### Helper lemmas -/

lemma sort_perm (l : List Activity) : (sortByTimestampDesc l).Perm l :=
  List.perm_insertionSort activityOrd l

lemma sort_pairwise (l : List Activity) :
    List.Pairwise activityOrd (sortByTimestampDesc l) :=
  List.sorted_insertionSort activityOrd l

lemma activities_at_offset_sublist (db : DB) (q : Query) (limit offset : Int) :
    (_activities_at_offset db q limit offset).Sublist
      (sortByTimestampDesc (evalQuery db q)) := by
  unfold _activities_at_offset
  set rows := sortByTimestampDesc (evalQuery db q) with hrows
  by_cases hoff : offset ≠ 0 <;> by_cases hlim : limit ≠ 0
  · rw [if_pos hlim, if_pos hoff]
    exact ((rows.drop offset.toNat).take_sublist limit.toNat).trans
      (rows.drop_sublist offset.toNat)
  · rw [if_neg hlim, if_pos hoff]
    exact rows.drop_sublist offset.toNat
  · rw [if_pos hlim, if_neg hoff]
    exact rows.take_sublist limit.toNat
  · rw [if_neg hlim, if_neg hoff]

lemma pairwise_activities_at_offset (db : DB) (q : Query) (limit offset : Int) :
    List.Pairwise activityOrd (_activities_at_offset db q limit offset) :=
  List.Pairwise.sublist (activities_at_offset_sublist db q limit offset)
    (sort_pairwise (evalQuery db q))

lemma count_activities_at_offset_le (db : DB) (q : Query) (limit offset : Int)
    (a : Activity) :
    (_activities_at_offset db q limit offset).count a ≤
      (evalQuery db q).count a := by
  calc (_activities_at_offset db q limit offset).count a
      ≤ (sortByTimestampDesc (evalQuery db q)).count a :=
        (activities_at_offset_sublist db q limit offset).count_le a
    _ = (evalQuery db q).count a := (sort_perm (evalQuery db q)).count_eq a

lemma count_eval_union_le_one (db : DB) (q1 q2 : Query) (a : Activity) :
    (evalQuery db (.union q1 q2)).count a ≤ 1 :=
  List.nodup_iff_count_le_one.1 (List.nodup_dedup _) a

lemma activities_at_offset_zero (db : DB) (q : Query) :
    _activities_at_offset db q 0 0 = sortByTimestampDesc (evalQuery db q) := by
  simp [_activities_at_offset]

lemma eval_filter_ff (db : DB) : evalQuery db (.filter .ff) = [] := by
  simp [evalQuery, evalPred]

lemma activities_at_offset_ff (db : DB) (limit offset : Int) :
    _activities_at_offset db (.filter .ff) limit offset = [] := by
  unfold _activities_at_offset
  rw [eval_filter_ff]
  simp [sortByTimestampDesc]

lemma activities_at_offset_neg_offset (db : DB) (q : Query) (limit offset : Int)
    (h : offset < 0) :
    _activities_at_offset db q limit offset = _activities_at_offset db q limit 0 := by
  have h1 : offset ≠ 0 := by omega
  have h2 : offset.toNat = 0 := by omega
  simp [_activities_at_offset, h1, h2]

lemma activities_at_offset_neg_limit (db : DB) (q : Query) (limit offset : Int)
    (h : limit < 0) :
    _activities_at_offset db q limit offset = [] := by
  have h1 : limit ≠ 0 := by omega
  have h2 : limit.toNat = 0 := by omega
  simp [_activities_at_offset, h1, h2]

lemma activities_at_offset_take_add (db : DB) (q : Query) (L : Int) (hL : 0 < L) :
    _activities_at_offset db q L 0 ++ _activities_at_offset db q L L =
      _activities_at_offset db q (2 * L) 0 := by
  have h1 : L ≠ 0 := by omega
  have h2 : (2 * L) ≠ 0 := by omega
  have h3 : (2 * L).toNat = L.toNat + L.toNat := by omega
  simp [_activities_at_offset, h1, h2, h3, List.take_add]

lemma mem_activities_at_offset_zero (db : DB) (q : Query) (a : Activity) :
    a ∈ _activities_at_offset db q 0 0 ↔ a ∈ evalQuery db q := by
  rw [activities_at_offset_zero]
  exact (sort_perm (evalQuery db q)).mem_iff

lemma count_activities_at_offset_zero (db : DB) (q : Query) (a : Activity) :
    (_activities_at_offset db q 0 0).count a = (evalQuery db q).count a := by
  rw [activities_at_offset_zero]
  exact (sort_perm (evalQuery db q)).count_eq a

lemma activities_at_offset_eq_windowRows (db : DB) (q : Query)
    (limit offset : Int) :
    _activities_at_offset db q limit offset =
      windowRows (sortByTimestampDesc (evalQuery db q)) limit offset := rfl

lemma possibleExecution_activities_at_offset (db : DB) (q : Query)
    (limit offset : Int) :
    possibleExecution db q limit offset (_activities_at_offset db q limit offset) :=
  ⟨sortByTimestampDesc (evalQuery db q), sort_perm _, sort_pairwise _, rfl⟩

lemma windowRows_take_add (rows : List Activity) (L : Int) (hL : 0 < L) :
    windowRows rows L 0 ++ windowRows rows L L = windowRows rows (2 * L) 0 := by
  have h1 : L ≠ 0 := by omega
  have h2 : (2 * L) ≠ 0 := by omega
  have h3 : (2 * L).toNat = L.toNat + L.toNat := by omega
  simp [windowRows, h1, h2, h3, List.take_add]

/-! ### Concrete database states used as test inputs -/

/-- A single activity in which user `u1` acts on themselves. -/
def a0 : Activity :=
  { id := "a1", timestamp := 10, user_id := "u1", object_id := "u1",
    revision_id := "r0", activity_type := "new_user", data := [] }

/-- A one-row log with no groups and no follow relationships. -/
def db0 : DB :=
  { activities := [a0], groups := [], user_following_user := [],
    user_following_dataset := [], user_following_group := [] }

/-- An activity about package `p1` with timestamp 5 and id `"a"`. -/
def actA : Activity :=
  { id := "a", timestamp := 5, user_id := "u2", object_id := "p1",
    revision_id := "r1", activity_type := "new_package", data := [] }

/-- An activity about package `p1` with the same timestamp 5 and id `"b"`. -/
def actB : Activity :=
  { id := "b", timestamp := 5, user_id := "u3", object_id := "p1",
    revision_id := "r2", activity_type := "changed_package", data := [] }

/-- A log holding two activities with equal timestamps, inserted in
ascending-id order. -/
def db1 : DB :=
  { activities := [actA, actB], groups := [], user_following_user := [],
    user_following_dataset := [], user_following_group := [] }

/-! ### Claims -/

/-- Claim C1, counterexample: the code orders only by `timestamp`
descending, so equal-timestamp activities are not reordered by id.  On
`db1`, `package_activity_list` returns the adjacent equal-timestamp pair
`[actA, actB]` whose ids are strictly ascending (`"a"` before `"b"` in
lexicographic order), contradicting "activities with equal timestamps
are ordered deterministically by id descending". -/
theorem C1_counterexample :
    package_activity_list db1 "p1" 0 0 = [actA, actB] ∧
    actA.timestamp = actB.timestamp ∧
    ¬ (actB.id.toList ≤ actA.id.toList) := by decide

/-- Claim C1, amended: for every feed operation and every log state, the
returned sequence is ordered by timestamp descending (`timestamp[i] ≥
timestamp[i+1]` for all adjacent pairs); activities with equal
timestamps are returned in the order of the underlying composed query
(the source sorts only by `desc(Activity.timestamp)`, with no id
tie-break). -/
theorem C1_ordered_by_timestamp_desc (db : DB) (u p g : String)
    (limit offset : Int) :
    List.Chain' (fun a b : Activity => b.timestamp ≤ a.timestamp)
      (user_activity_list db u limit offset) ∧
    List.Chain' (fun a b : Activity => b.timestamp ≤ a.timestamp)
      (package_activity_list db p limit offset) ∧
    List.Chain' (fun a b : Activity => b.timestamp ≤ a.timestamp)
      (group_activity_list db g limit offset) ∧
    List.Chain' (fun a b : Activity => b.timestamp ≤ a.timestamp)
      (activities_from_everything_followed_by_user db u limit offset) ∧
    List.Chain' (fun a b : Activity => b.timestamp ≤ a.timestamp)
      (dashboard_activity_list db u limit offset) ∧
    List.Chain' (fun a b : Activity => b.timestamp ≤ a.timestamp)
      (recently_changed_packages_activity_list db limit offset) :=
  ⟨(pairwise_activities_at_offset db (_user_activity_query u) limit offset).chain',
   (pairwise_activities_at_offset db (_package_activity_query p) limit offset).chain',
   (pairwise_activities_at_offset db (_group_activity_query db g) limit offset).chain',
   (pairwise_activities_at_offset db
     (_activities_from_everything_followed_by_user_query db u) limit offset).chain',
   (pairwise_activities_at_offset db (_dashboard_activity_query db u) limit offset).chain',
   (pairwise_activities_at_offset db _changed_packages_activity_query limit offset).chain'⟩

/-- Claim C2: an activity that is both from and about user `u` (the user
acted on themselves) appears exactly once in the unwindowed
`user_activity_list(u)` — the from-user and about-user predicates are
combined by deduplicating set union — and at most once in every
windowed page. -/
theorem C2_user_feed_dedup (db : DB) (u : String) (a : Activity)
    (hmem : a ∈ db.activities) (hu : a.user_id = u) (ho : a.object_id = u) :
    (user_activity_list db u 0 0).count a = 1 ∧
    ∀ limit offset : Int, (user_activity_list db u limit offset).count a ≤ 1 := by
  constructor
  · show (_activities_at_offset db (_user_activity_query u) 0 0).count a = 1
    rw [count_activities_at_offset_zero]
    have hf : a ∈ evalQuery db (_activities_from_user_query u) := by
      show a ∈ db.activities.filter (fun x => evalPred (.userIdEq u) x)
      exact List.mem_filter.2 ⟨hmem, by simp [evalPred, hu]⟩
    have hmem2 : a ∈ evalQuery db (_user_activity_query u) := by
      show a ∈ (evalQuery db (_activities_from_user_query u) ++
                evalQuery db (_activities_about_user_query u)).dedup
      exact List.mem_dedup.2 (List.mem_append.2 (Or.inl hf))
    have hnd : (evalQuery db (_user_activity_query u)).Nodup := by
      show ((evalQuery db (_activities_from_user_query u) ++
             evalQuery db (_activities_about_user_query u)).dedup).Nodup
      exact List.nodup_dedup _
    exact List.count_eq_one_of_mem hnd hmem2
  · intro limit offset
    exact le_trans
      (count_activities_at_offset_le db (_user_activity_query u) limit offset a)
      (count_eval_union_le_one db (_activities_from_user_query u)
        (_activities_about_user_query u) a)

/-- Claim C2, witness: in `db0` the activity `a0` has `user_id =
object_id = "u1"` and appears exactly once in the user feed. -/
theorem C2_witness :
    (a0 ∈ db0.activities ∧ a0.user_id = "u1" ∧ a0.object_id = "u1") ∧
    ((user_activity_list db0 "u1" 0 0).count a0 = 1 ∧
     ∀ limit offset : Int, (user_activity_list db0 "u1" limit offset).count a0 ≤ 1) :=
  ⟨⟨by decide, rfl, rfl⟩, C2_user_feed_dedup db0 "u1" a0 (by decide) rfl rfl⟩

/-- Claim C3, counterexample: for `db0` (where `"u1"` follows zero
groups) the composed followed-everything query still contains a third
union branch for groups — the empty-matching `filter("0=1")` predicate —
so it is not the two-term union of the followed-users and
followed-datasets predicates. -/
theorem C3_counterexample :
    _activities_from_everything_followed_by_user_query db0 "u1" =
      Query.union
        (Query.union (_activites_from_users_followed_by_user_query "u1")
          (_activities_from_datasets_followed_by_user_query "u1"))
        (Query.filter Pred.ff) ∧
    _activities_from_everything_followed_by_user_query db0 "u1" ≠
      Query.union (_activites_from_users_followed_by_user_query "u1")
        (_activities_from_datasets_followed_by_user_query "u1") := by decide

/-- Claim C3, amended: for a user who follows zero groups the group
branch is not omitted: it is contributed to the union as the
empty-matching `filter("0=1")` predicate.  The evaluated result is
nevertheless the same as that of the two-term union of the
followed-users and followed-datasets predicates. -/
theorem C3_empty_group_branch (db : DB) (u : String)
    (h : followee_list db u = []) :
    _activities_from_everything_followed_by_user_query db u =
      Query.union
        (Query.union (_activites_from_users_followed_by_user_query u)
          (_activities_from_datasets_followed_by_user_query u))
        (Query.filter Pred.ff) ∧
    evalQuery db (_activities_from_everything_followed_by_user_query db u) =
      evalQuery db
        (Query.union (_activites_from_users_followed_by_user_query u)
          (_activities_from_datasets_followed_by_user_query u)) := by
  have hg : _activities_from_groups_followed_by_user_query db u = .filter .ff := by
    unfold _activities_from_groups_followed_by_user_query
    rw [h]
  constructor
  · unfold _activities_from_everything_followed_by_user_query
    rw [hg]
  · unfold _activities_from_everything_followed_by_user_query
    rw [hg]
    show (evalQuery db
            (Query.union (_activites_from_users_followed_by_user_query u)
              (_activities_from_datasets_followed_by_user_query u)) ++
          evalQuery db (.filter .ff)).dedup = _
    rw [eval_filter_ff, List.append_nil]
    show ((evalQuery db (_activites_from_users_followed_by_user_query u) ++
           evalQuery db (_activities_from_datasets_followed_by_user_query u)).dedup).dedup =
         (evalQuery db (_activites_from_users_followed_by_user_query u) ++
          evalQuery db (_activities_from_datasets_followed_by_user_query u)).dedup
    exact List.dedup_idem

/-- Claim C3, witness: user `"u1"` of `db0` follows zero groups; the
followed-everything query has the `filter("0=1")` group branch yet
evaluates to the two-term union's result. -/
theorem C3_witness :
    followee_list db0 "u1" = [] ∧
    (_activities_from_everything_followed_by_user_query db0 "u1" =
       Query.union
         (Query.union (_activites_from_users_followed_by_user_query "u1")
           (_activities_from_datasets_followed_by_user_query "u1"))
         (Query.filter Pred.ff) ∧
     evalQuery db0 (_activities_from_everything_followed_by_user_query db0 "u1") =
       evalQuery db0
         (Query.union (_activites_from_users_followed_by_user_query "u1")
           (_activities_from_datasets_followed_by_user_query "u1"))) :=
  ⟨rfl, C3_empty_group_branch db0 "u1" rfl⟩

/-- Claim C4, counterexample: negative `limit`/`offset` do not make the
call fail — no validation exists in the source and a result list is
returned.  On `db0`, a call with `offset = -1` returns the full result
list, and a call with `limit = -1` returns a (empty) result list; no
`InvalidArgument` error arises anywhere. -/
theorem C4_counterexample :
    user_activity_list db0 "u1" 0 (-1) = [a0] ∧
    user_activity_list db0 "u1" (-1) 0 = [] := by decide

/-- Claim C4, amended: this layer performs no validation of `limit` and
`offset`: a call with negative arguments still returns a result list.
Negative values are handed to the store's windowing stage unchecked; in
this model a negative offset skips nothing (it behaves as offset 0) and
a negative limit caps the page to zero rows. -/
theorem C4_no_validation (db : DB) (u p g : String) (limit offset : Int) :
    (offset < 0 →
      user_activity_list db u limit offset = user_activity_list db u limit 0 ∧
      package_activity_list db p limit offset = package_activity_list db p limit 0 ∧
      group_activity_list db g limit offset = group_activity_list db g limit 0 ∧
      activities_from_everything_followed_by_user db u limit offset =
        activities_from_everything_followed_by_user db u limit 0 ∧
      dashboard_activity_list db u limit offset = dashboard_activity_list db u limit 0 ∧
      recently_changed_packages_activity_list db limit offset =
        recently_changed_packages_activity_list db limit 0) ∧
    (limit < 0 →
      user_activity_list db u limit offset = [] ∧
      package_activity_list db p limit offset = [] ∧
      group_activity_list db g limit offset = [] ∧
      activities_from_everything_followed_by_user db u limit offset = [] ∧
      dashboard_activity_list db u limit offset = [] ∧
      recently_changed_packages_activity_list db limit offset = []) := by
  constructor
  · intro h
    exact ⟨activities_at_offset_neg_offset db _ limit offset h,
           activities_at_offset_neg_offset db _ limit offset h,
           activities_at_offset_neg_offset db _ limit offset h,
           activities_at_offset_neg_offset db _ limit offset h,
           activities_at_offset_neg_offset db _ limit offset h,
           activities_at_offset_neg_offset db _ limit offset h⟩
  · intro h
    exact ⟨activities_at_offset_neg_limit db _ limit offset h,
           activities_at_offset_neg_limit db _ limit offset h,
           activities_at_offset_neg_limit db _ limit offset h,
           activities_at_offset_neg_limit db _ limit offset h,
           activities_at_offset_neg_limit db _ limit offset h,
           activities_at_offset_neg_limit db _ limit offset h⟩

/-- Claim C4, witness: the amended statement at `offset = -1` and at
`limit = -1` on `db0`. -/
theorem C4_witness :
    (user_activity_list db0 "u1" 5 (-1) = user_activity_list db0 "u1" 5 0 ∧
     package_activity_list db0 "p1" 5 (-1) = package_activity_list db0 "p1" 5 0 ∧
     group_activity_list db0 "g1" 5 (-1) = group_activity_list db0 "g1" 5 0 ∧
     activities_from_everything_followed_by_user db0 "u1" 5 (-1) =
       activities_from_everything_followed_by_user db0 "u1" 5 0 ∧
     dashboard_activity_list db0 "u1" 5 (-1) = dashboard_activity_list db0 "u1" 5 0 ∧
     recently_changed_packages_activity_list db0 5 (-1) =
       recently_changed_packages_activity_list db0 5 0) ∧
    (user_activity_list db0 "u1" (-1) 2 = [] ∧
     package_activity_list db0 "p1" (-1) 2 = [] ∧
     group_activity_list db0 "g1" (-1) 2 = [] ∧
     activities_from_everything_followed_by_user db0 "u1" (-1) 2 = [] ∧
     dashboard_activity_list db0 "u1" (-1) 2 = [] ∧
     recently_changed_packages_activity_list db0 (-1) 2 = []) :=
  ⟨(C4_no_validation db0 "u1" "p1" "g1" 5 (-1)).1 (by decide),
   (C4_no_validation db0 "u1" "p1" "g1" (-1) 2).2 (by decide)⟩

/-- Claim C5: a group id absent from the group store yields an empty
feed for every `limit` and `offset` — `Group.get` returns none, the
query becomes the empty-matching `filter("0=1")`, and no error is
raised (the operation is a total function). -/
theorem C5_nonexistent_group_empty (db : DB) (g : String) (limit offset : Int)
    (h : Group.get db g = none) :
    group_activity_list db g limit offset = [] := by
  show _activities_at_offset db (_group_activity_query db g) limit offset = []
  unfold _group_activity_query
  rw [h]
  exact activities_at_offset_ff db limit offset

/-- Claim C5, witness: `"nonexistent-id"` is not in `db0`'s group store
and its feed is empty. -/
theorem C5_witness :
    Group.get db0 "nonexistent-id" = none ∧
    group_activity_list db0 "nonexistent-id" 10 0 = [] :=
  ⟨rfl, C5_nonexistent_group_empty db0 "nonexistent-id" 10 0 rfl⟩

/-- Claim C6, counterexample: the code orders only by timestamp, so the
order of equal-timestamp rows is unspecified per execution and the
three calls of the pagination identity are separate executions.  On
`db1` (two rows with equal timestamps, page size `L = 1`), one valid
execution of the page `(limit 1, offset 0)` returns `[actA]` and one
valid execution of the page `(limit 1, offset 1)` also returns `[actA]`
(realizing the opposite tie order), yet their concatenation
`[actA, actA]` is not a possible result of the single page
`(limit 2, offset 0)`. -/
theorem C6_counterexample :
    possibleExecution db1 (_package_activity_query "p1") 1 0 [actA] ∧
    possibleExecution db1 (_package_activity_query "p1") 1 1 [actA] ∧
    ¬ possibleExecution db1 (_package_activity_query "p1") 2 0 [actA, actA] := by
  refine ⟨⟨[actA, actB], by decide, by decide, by decide⟩,
          ⟨[actB, actA], by decide, by decide, by decide⟩, ?_⟩
  rintro ⟨rows, hperm, hsort, hres⟩
  have heval : evalQuery db1 (_package_activity_query "p1") = [actA, actB] := by
    decide
  rw [heval] at hperm
  have hw : windowRows rows 2 0 = rows.take 2 := by simp [windowRows]
  have hlen : rows.length = 2 := by simpa using hperm.length_eq
  have hrows : rows = [actA, actA] := by
    have htake : rows.take 2 = rows := List.take_of_length_le (by omega)
    rw [hw, htake] at hres
    exact hres.symm
  have hc := hperm.count_eq actA
  rw [hrows] at hc
  exact absurd hc (by decide)

/-- Claim C6, amended: the pagination identity holds whenever the three
calls observe the same ordering realization of the composed query: for
every feed query, fixed log and positive page size `L`, if `rows` is any
timestamp-descending arrangement of the query's result set shared by
the calls, then the page `(limit L, offset 0)` followed by the page
`(limit L, offset L)` concatenates to the page `(limit 2L, offset 0)`,
and all three are possible executions.  (The source does not pin the
equal-timestamp order down, so separate executions need not share a
realization; the deterministic model `_activities_at_offset` is one
shared realization.) -/
theorem C6_pagination_same_realization (db : DB) (q : Query)
    (rows : List Activity) (L : Int) (hL : 0 < L)
    (hperm : rows.Perm (evalQuery db q))
    (hsort : List.Pairwise activityOrd rows) :
    windowRows rows L 0 ++ windowRows rows L L = windowRows rows (2 * L) 0 ∧
    possibleExecution db q L 0 (windowRows rows L 0) ∧
    possibleExecution db q L L (windowRows rows L L) ∧
    possibleExecution db q (2 * L) 0
      (windowRows rows L 0 ++ windowRows rows L L) :=
  ⟨windowRows_take_add rows L hL,
   ⟨rows, hperm, hsort, rfl⟩,
   ⟨rows, hperm, hsort, rfl⟩,
   ⟨rows, hperm, hsort, windowRows_take_add rows L hL⟩⟩

/-- Claim C6, witness: the amended statement on `db1` with the shared
realization `[actB, actA]` (the tie order opposite to the deterministic
model's) and `L = 1`. -/
theorem C6_witness :
    (0 < (1 : Int) ∧
     List.Perm [actB, actA] (evalQuery db1 (_package_activity_query "p1")) ∧
     List.Pairwise activityOrd [actB, actA]) ∧
    (windowRows [actB, actA] 1 0 ++ windowRows [actB, actA] 1 1 =
       windowRows [actB, actA] (2 * 1) 0 ∧
     possibleExecution db1 (_package_activity_query "p1") 1 0
       (windowRows [actB, actA] 1 0) ∧
     possibleExecution db1 (_package_activity_query "p1") 1 1
       (windowRows [actB, actA] 1 1) ∧
     possibleExecution db1 (_package_activity_query "p1") (2 * 1) 0
       (windowRows [actB, actA] 1 0 ++ windowRows [actB, actA] 1 1)) :=
  ⟨⟨by decide, by decide, by decide⟩,
   C6_pagination_same_realization db1 (_package_activity_query "p1")
     [actB, actA] 1 (by decide) (by decide) (by decide)⟩

/-- Claim C7: every activity in the unwindowed public user feed is also
in the unwindowed dashboard feed — the dashboard query unions the same
from-user and about-user predicates with the followed-things
predicates. -/
theorem C7_dashboard_superset (db : DB) (u : String) (a : Activity)
    (h : a ∈ user_activity_list db u 0 0) :
    a ∈ dashboard_activity_list db u 0 0 := by
  have h1 : a ∈ evalQuery db (_user_activity_query u) :=
    (mem_activities_at_offset_zero db (_user_activity_query u) a).1 h
  refine (mem_activities_at_offset_zero db (_dashboard_activity_query db u) a).2 ?_
  revert h1
  simp only [_user_activity_query, _dashboard_activity_query, evalQuery,
    List.mem_dedup, List.mem_append]
  tauto

/-- Claim C7, witness: `a0` is in `db0`'s user feed for `"u1"` and hence
in the dashboard feed. -/
theorem C7_witness :
    a0 ∈ user_activity_list db0 "u1" 0 0 ∧
    a0 ∈ dashboard_activity_list db0 "u1" 0 0 :=
  ⟨by decide, C7_dashboard_superset db0 "u1" a0 (by decide)⟩

/-- Claim C8: for every feed operation, `limit = 0` and `offset = 0`
skip the windowing stages entirely (falsy means unbounded): the result
is the whole sorted evaluation of the composed query, with no cap and no
skipped rows, and no error occurs (the operations are total). -/
theorem C8_zero_means_unbounded (db : DB) (u p g : String) :
    user_activity_list db u 0 0 =
      sortByTimestampDesc (evalQuery db (_user_activity_query u)) ∧
    package_activity_list db p 0 0 =
      sortByTimestampDesc (evalQuery db (_package_activity_query p)) ∧
    group_activity_list db g 0 0 =
      sortByTimestampDesc (evalQuery db (_group_activity_query db g)) ∧
    activities_from_everything_followed_by_user db u 0 0 =
      sortByTimestampDesc
        (evalQuery db (_activities_from_everything_followed_by_user_query db u)) ∧
    dashboard_activity_list db u 0 0 =
      sortByTimestampDesc (evalQuery db (_dashboard_activity_query db u)) ∧
    recently_changed_packages_activity_list db 0 0 =
      sortByTimestampDesc (evalQuery db _changed_packages_activity_query) :=
  ⟨activities_at_offset_zero db _, activities_at_offset_zero db _,
   activities_at_offset_zero db _, activities_at_offset_zero db _,
   activities_at_offset_zero db _, activities_at_offset_zero db _⟩

/-- Claim C9: the followed-everything feed never returns the same row
twice: although the per-group sub-queries are combined with `union_all`
(which can duplicate a row matched by several followed groups), the
final three-way combination is a deduplicating set union, and windowing
only removes rows. -/
theorem C9_everything_no_duplicates (db : DB) (u : String)
    (limit offset : Int) (a : Activity) :
    (activities_from_everything_followed_by_user db u limit offset).count a ≤ 1 :=
  le_trans
    (count_activities_at_offset_le db
      (_activities_from_everything_followed_by_user_query db u) limit offset a)
    (count_eval_union_le_one db
      (.union (_activites_from_users_followed_by_user_query u)
        (_activities_from_datasets_followed_by_user_query u))
      (_activities_from_groups_followed_by_user_query db u) a)

/-- Claim C10: `Activity.__init__` and `ActivityDetail.__init__` default
an omitted or `None` `data` argument to the empty mapping, and store a
supplied mapping unchanged. -/
theorem C10_data_defaults (gid : String) (now : Nat)
    (u o r t aid ot : String) (m : List (String × String)) :
    (Activity.init gid now u o r t none).data = [] ∧
    (Activity.init gid now u o r t (some m)).data = m ∧
    (ActivityDetail.init aid o ot t none).data = [] ∧
    (ActivityDetail.init aid o ot t (some m)).data = m :=
  ⟨rfl, rfl, rfl, rfl⟩

end CkanActivity
